import Mathlib

/-!
Shallow embedding of the certificate-provisioning code in
`src/utils/s3_ssl_utils.py` and the storage-client URL construction in
`src/utils/linode_utils.py`.

External collaborators (the ACME client, the storage provider, the plain
HTTP reachability check) are resolved by oracle records: each remote call's
success or failure, and each polled status, is a field of an environment
record, and every remote interaction is recorded as an event in a trace.
Pure string manipulation (URL quoting, `urljoin`) is translated directly.
-/

namespace Infra

/-- Checks whether `needle` occurs as a contiguous segment starting at the
head of `hay` (character lists). -/
def segAt : List Char → List Char → Bool
  | [], _ => true
  | _ :: _, [] => false
  | a :: as, b :: bs => a == b && segAt as bs

/-- Checks whether `needle` occurs as a contiguous segment anywhere in
`hay` (character lists). -/
def hasSeg (needle : List Char) : List Char → Bool
  | [] => needle.isEmpty
  | c :: cs => segAt needle (c :: cs) || hasSeg needle cs

/-- Python's `needle in hay` test on strings: substring containment.
Used by `order_auth` for `challenge.type in acme_supported_challenges`
(note `acme_supported_challenges` is a `str`, so this is a substring
test, not list membership). -/
def pyStrIn (needle hay : String) : Bool :=
  hasSeg needle.data hay.data

/-- Uppercase hexadecimal digit for a value below 16. -/
def hexDigit (n : Nat) : Char :=
  if n < 10 then Char.ofNat (48 + n) else Char.ofNat (55 + n)

/-- UTF-8 encoding of one character as a list of byte values. -/
def utf8Enc (c : Char) : List Nat :=
  let n := c.toNat
  if n < 128 then [n]
  else if n < 2048 then [192 + n / 64, 128 + n % 64]
  else if n < 65536 then [224 + n / 4096, 128 + (n / 64) % 64, 128 + n % 64]
  else [240 + n / 262144, 128 + (n / 4096) % 64, 128 + (n / 64) % 64,
    128 + n % 64]

/-- Bytes left unescaped by Python's `urllib.parse.quote` with the default
`safe='/'`: ASCII letters, digits, `_`, `.`, `-`, `~` and `/`. -/
def quoteSafe (b : Nat) : Bool :=
  (65 ≤ b && b ≤ 90) || (97 ≤ b && b ≤ 122) || (48 ≤ b && b ≤ 57) ||
  b == 95 || b == 46 || b == 45 || b == 126 || b == 47

/-- Percent-escapes a list of byte values, keeping safe bytes verbatim. -/
def quoteBytes : List Nat → String
  | [] => ""
  | b :: bs =>
    (if quoteSafe b then String.singleton (Char.ofNat b)
     else "%" ++ String.singleton (hexDigit (b / 16)) ++
       String.singleton (hexDigit (b % 16))) ++ quoteBytes bs

/-- Python's `urllib.parse.quote(s)` with the default safe set: encode to
UTF-8, then percent-escape every unsafe byte. -/
def pyQuote (s : String) : String :=
  quoteBytes (s.data.map utf8Enc).flatten

/-- Proof-object name derived in `order_auth`:
`f'/.well-known/acme-challenge/{quote(challenge["token"])}'`. -/
def objName (token : String) : String :=
  "/.well-known/acme-challenge/" ++ pyQuote token

/-- One remote interaction performed during a provisioning run.
`createUrl` is the storage-provider call obtaining a pre-signed URL;
`putObj` / `deleteObj` are the HTTP requests against that URL;
`aclUpdate` is the storage-provider ACL call; `headReq` the unauthenticated
reachability check; `respond`, `finalize` and `fetchCert` are calls to the
certificate authority. -/
inductive Event where
  | createUrl (cluster label name method : String)
  | putObj (name data : String)
  | aclUpdate (name acl : String)
  | headReq (domain name : String)
  | respond (token : String)
  | deleteObj (name : String)
  | finalize
  | fetchCert
  deriving DecidableEq, Repr

/-- One ACME challenge as seen by `order_auth`: its type string and token. -/
structure Challenge where
  ctype : String
  token : String
  deriving DecidableEq, Repr

/-- Oracle for the remote calls made while resolving one authorization:
whether each call succeeds, and the challenge status once polling leaves
the transient set. -/
structure World where
  createPutUrlOk : Bool
  putOk : Bool
  aclOk : Bool
  headOk : Bool
  respondOk : Bool
  statusAfterPoll : String
  createDelUrlOk : Bool
  deriving DecidableEq, Repr

/-- One authorization on an order: its challenge list, plus the oracle
resolving the remote calls made while processing it. -/
structure Authorization where
  challenges : List Challenge
  world : World
  deriving DecidableEq, Repr

/-- Outcome of processing one authorization inside `order_auth`:
continue to the next (`ok`), `return 1` (`fail`), or a `requests.HTTPError`
propagating out of the function (`exc`). -/
inductive StepRes where
  | ok
  | fail
  | exc
  deriving DecidableEq, Repr

/-- Outcome of `order_auth` as a whole: a returned integer, or an
uncaught exception escaping the function. -/
inductive RunOutcome where
  | ret (code : Nat)
  | raised
  deriving DecidableEq, Repr

/-- Challenge selection in `order_auth`: the `for ... break / else` loop
picks the first challenge whose type is a substring of
`acme_supported_challenges`; if none matches the loop's `else` runs. -/
def challengeSelect (supported : String) : List Challenge → Option Challenge
  | [] => none
  | c :: cs =>
    if pyStrIn c.ctype supported then some c else challengeSelect supported cs

/-- Cleanup block in `order_auth`'s `finally`: ask the provider for a
pre-signed DELETE URL (always attempted), then, if that grant succeeded,
send the DELETE request. Failures of either step are caught and only
logged as a warning. -/
def cleanupEvents (cluster label name : String) (delUrlOk : Bool) :
    List Event :=
  Event.createUrl cluster label name "DELETE" ::
    (if delUrlOk then [Event.deleteObj name] else [])

/-- Body of `order_auth`'s per-authorization loop iteration, translated
step by step: select a challenge (loop `for/else`), publish the proof
object (pre-signed PUT URL, then PUT), then the `try ... finally` region:
ACL update (its `HTTPError` is NOT caught and escapes as `exc`),
reachability HEAD (caught, `return 1`), respond and poll (caught,
`return 1`), status check (`return 1` when not valid). The `finally`
cleanup runs on the `exc` and `fail` paths alike once the PUT region was
entered. Returns the events of this iteration and its outcome. -/
def resolveAuth (supported thumb cluster label domain : String)
    (a : Authorization) : List Event × StepRes :=
  match challengeSelect supported a.challenges with
  | none => ([], .fail)
  | some c =>
    let name := objName c.token
    let dat := c.token ++ "." ++ thumb
    let e1 := [Event.createUrl cluster label name "PUT"]
    if !a.world.createPutUrlOk then (e1, .fail)
    else
      let e2 := e1 ++ [Event.putObj name dat]
      if !a.world.putOk then (e2, .fail)
      else
        let body :=
          if !a.world.aclOk then ([], StepRes.exc)
          else
            let h := [Event.headReq domain name]
            if !a.world.headOk then (h, StepRes.fail)
            else
              let r := h ++ [Event.respond c.token]
              if !a.world.respondOk then (r, StepRes.fail)
              else if a.world.statusAfterPoll ≠ "valid" then (r, StepRes.fail)
              else (r, StepRes.ok)
        (e2 ++ [Event.aclUpdate name "public-read"] ++ body.1 ++
          cleanupEvents cluster label name a.world.createDelUrlOk, body.2)

/-- The `order_auth` function: iterate `resolveAuth` over
`order.authorizations`, stopping with `return 1` on the first failure, and
letting an uncaught exception escape; `return 0` when every authorization
succeeded. The trace collects every remote interaction in order. -/
def order_auth (supported thumb cluster label domain : String) :
    List Authorization → List Event × RunOutcome
  | [] => ([], .ret 0)
  | a :: rest =>
    let step := resolveAuth supported thumb cluster label domain a
    match step.2 with
    | .fail => (step.1, .ret 1)
    | .exc => (step.1, .raised)
    | .ok =>
      let tl := order_auth supported thumb cluster label domain rest
      (step.1 ++ tl.1, tl.2)

/-- Object name of a publish (PUT) attempt event, if any. -/
def eventPutName : Event → Option String
  | .putObj name _ => some name
  | _ => none

/-- Object name of a cleanup attempt event — a pre-signed DELETE URL
request against the storage provider — if any. -/
def eventDeleteAttemptName : Event → Option String
  | .createUrl _ _ name method =>
    if method == "DELETE" then some name else none
  | _ => none

/-- Object name of a DELETE request event, if any. -/
def eventDeleteReqName : Event → Option String
  | .deleteObj name => some name
  | _ => none

/-- Names carried by the proof-object publish (PUT) attempts of a trace. -/
def putNames (tr : List Event) : List String :=
  tr.filterMap eventPutName

/-- Names carried by the proof-object cleanup attempts of a trace: the
pre-signed DELETE URL requests made against the storage provider. -/
def deleteAttemptNames (tr : List Event) : List String :=
  tr.filterMap eventDeleteAttemptName

/-- Names carried by the DELETE requests of a trace. -/
def deleteReqNames (tr : List Event) : List String :=
  tr.filterMap eventDeleteReqName

/-- Boolean summary of an authorization resolving fully successfully:
a supported challenge exists and every step up to the status check
succeeds with the challenge polled to `valid`. -/
def authOk (supported : String) (a : Authorization) : Bool :=
  (challengeSelect supported a.challenges).isSome &&
  a.world.createPutUrlOk && a.world.putOk && a.world.aclOk &&
  a.world.headOk && a.world.respondOk &&
  (a.world.statusAfterPoll == "valid")

/-- ACME account handle: the code only reads `account.key_thumbprint`. -/
structure Account where
  key_thumbprint : String
  deriving DecidableEq, Repr

/-- Result of `registering_acme_account`, whose Python return type is
`Union[Account, int]`. -/
inductive RegResult where
  | acct (a : Account)
  | errCode (n : Nat)
  deriving DecidableEq, Repr

/-- The `registering_acme_account` function. Its oracle is the outcome of
`acme_client.new_account`: `none` models an `HTTPError` (caught,
`return 1`), `some none` models the call returning `None` (`return 1`),
`some (some a)` a successful registration. -/
def registering_acme_account (newAccount : Option (Option Account)) :
    RegResult :=
  match newAccount with
  | none => .errCode 1
  | some none => .errCode 1
  | some (some a) => .acct a

/-- Oracle for `creating_acme_order`'s own remote calls: whether
`new_order` succeeds and which authorizations it yields, whether
`finalize`/polling succeed, the order status after polling, and whether
the certificate fetch succeeds (with the returned PEM body). -/
structure OrderEnv where
  newOrderOk : Bool
  auths : List Authorization
  finalizeOk : Bool
  orderStatus : String
  certOk : Bool
  certPem : String
  deriving DecidableEq, Repr

/-- Result of `creating_acme_order`, whose Python return type is
`Union[str, int]`; `raised` models the uncaught `HTTPError` escaping from
`order_auth` through this function. -/
inductive OrderResult where
  | cert (c : String)
  | errCode (n : Nat)
  | raised
  deriving DecidableEq, Repr

/-- The `creating_acme_order` function: create the order (`HTTPError`
caught, `return 1`), run `order_auth` (a `1` status means `return 1`; an
uncaught exception propagates), finalize and poll (caught, `return 1`),
check `order.status != "valid"` (`return 1`), fetch the certificate
(caught, `return 1`). Returns the event trace and the result. -/
def creating_acme_order (domain cluster label supported thumb : String)
    (env : OrderEnv) : List Event × OrderResult :=
  if !env.newOrderOk then ([], .errCode 1)
  else
    let auth := order_auth supported thumb cluster label domain env.auths
    match auth.2 with
    | .raised => (auth.1, .raised)
    | .ret n =>
      if n == 1 then (auth.1, .errCode 1)
      else
        let t2 := auth.1 ++ [Event.finalize]
        if !env.finalizeOk then (t2, .errCode 1)
        else if env.orderStatus ≠ "valid" then (t2, .errCode 1)
        else
          let t3 := t2 ++ [Event.fetchCert]
          if !env.certOk then (t3, .errCode 1)
          else (t3, .cert env.certPem)

/-- The `update_certs` function: `delete_ssl` (`HTTPError` caught,
`return 1`), then `upload_ssl` (`HTTPError` caught, `return 1`), else
`return 0`. The oracle booleans give each call's success. -/
def update_certs (deleteSslOk uploadSslOk : Bool) : Nat :=
  if !deleteSslOk then 1
  else if !uploadSslOk then 1
  else 0

/-- Outcome of the `set_s3_ssl` process: a value returned to the caller,
process termination via `exit(code)`, or an uncaught exception. -/
inductive ProcOutcome where
  | ret (code : Nat)
  | exited (code : Nat)
  | raised
  deriving DecidableEq, Repr

/-- Oracle for one `set_s3_ssl` run: the environment secret (missing means
`return 1`), the `(cluster, label)` pairs listed by `buckets()`, the
`new_account` outcome, the order-level oracle, and the install-step
oracles. -/
structure SslEnv where
  bucketAccessKey : Option String
  bucketList : List (String × String)
  newAccount : Option (Option Account)
  orderEnv : OrderEnv
  deleteSslOk : Bool
  uploadSslOk : Bool
  deriving DecidableEq, Repr

/-- The `set_s3_ssl` function: missing access key (`return 1`), bucket
filter by cluster and label (`return 1` when empty), account registration
(`exit(account)` when it returned an int), order creation and
authorization (`exit(certificate)` when it returned an int; an uncaught
exception propagates), then `update_certs` — whose returned status the
source discards — and `return 0`. -/
def set_s3_ssl (domain cluster label supported : String) (env : SslEnv) :
    ProcOutcome :=
  match env.bucketAccessKey with
  | none => .ret 1
  | some _ =>
    if (env.bucketList.filter
        (fun b => b.1 == cluster && b.2 == label)).isEmpty then .ret 1
    else
      match registering_acme_account env.newAccount with
      | .errCode n => .exited n
      | .acct a =>
        match (creating_acme_order domain cluster label supported
            a.key_thumbprint env.orderEnv).2 with
        | .raised => .raised
        | .errCode n => .exited n
        | .cert _ =>
          let _ := update_certs env.deleteSslOk env.uploadSslOk
          .ret 0

/-- RSA key material as far as the code observes it: the parameters passed
to the library generator. -/
structure RSAPrivateKey where
  public_exponent : Nat
  key_size : Nat
  deriving DecidableEq, Repr

/-- External collaborator: `cryptography`'s `rsa.generate_private_key`,
whose parameter validation (`_verify_rsa_parameters`) rejects a public
exponent outside `{3, 65537}` and a key size below 512 bits, and generates
a key for every other input. -/
def rsaLibGenerate (publicExponent keySize : Nat) :
    Except String RSAPrivateKey :=
  if publicExponent ≠ 3 ∧ publicExponent ≠ 65537 then
    .error "public_exponent must be either 3 (for legacy purposes) or 65537"
  else if keySize < 512 then
    .error "key_size must be at least 512-bits."
  else .ok ⟨publicExponent, keySize⟩

/-- The `generate_private_key` function: it forwards the caller-supplied
size to the library with `public_exponent=65537` and performs no
validation of its own. -/
def generate_private_key (s3_key_size : Nat) : Except String RSAPrivateKey :=
  rsaLibGenerate 65537 s3_key_size

/-- Splits a character list at the first occurrence of `://`, returning
the part before it and the part after it. -/
def splitSchemeChars : List Char → Option (List Char × List Char)
  | [] => none
  | c :: cs =>
    if segAt "://".data (c :: cs) then some ([], cs.drop 2)
    else
      match splitSchemeChars cs with
      | none => none
      | some (pre, post) => some (c :: pre, post)

/-- Splits a character list on `/`, keeping empty segments. -/
def splitSlash : List Char → List (List Char)
  | [] => [[]]
  | c :: cs =>
    if c == '/' then [] :: splitSlash cs
    else
      match splitSlash cs with
      | [] => [[c]]
      | s :: ss => (c :: s) :: ss

/-- Relative-reference resolution of `urllib.parse.urljoin` restricted to
the shapes this client produces: an absolute base `scheme://netloc/path`
and a relative reference with no leading slash, no `.`/`..` segments and
no query or fragment. The base's last path segment is dropped and the
reference appended. A base without `://` falls back to returning the
reference (as Python does for an empty or plain-path base whose directory
part is a single non-empty segment). -/
def urljoinRel (base url : String) : String :=
  match splitSchemeChars base.data with
  | none => url
  | some (scheme, rest) =>
    match splitSlash rest with
    | [] => url
    | netloc :: pathSegs =>
      ⟨scheme⟩ ++ "://" ++ ⟨netloc⟩ ++ "/" ++
        ⟨List.intercalate ['/'] (pathSegs.dropLast ++ [url.data])⟩

/-- External collaborator: `urllib.parse.urljoin(base, url)`. When `url`
is itself an absolute URL (it carries a scheme), the result is `url` and
the base is ignored entirely; otherwise the reference is resolved against
the base. -/
def urljoin (base url : String) : String :=
  if pyStrIn "://" url then url else urljoinRel base url

/-- URL targeted by `LinodeObjectStorageClient.buckets`. -/
def buckets_target (linode_api : String) : String :=
  urljoin linode_api "v4/object-storage/buckets/"

/-- URL targeted by `LinodeObjectStorageClient.create_object_url`. The
source's f-string uses a backslash line continuation, so the sixteen
spaces of the following line's indentation are part of the literal. -/
def create_object_url_target (linode_api cluster bucket : String) : String :=
  urljoin linode_api
    ("v4/object-storage/buckets/" ++ pyQuote cluster ++ "/" ++
      pyQuote bucket ++ "                /object-url")

/-- URL targeted by `LinodeObjectStorageClient.update_object_acl`; an
absolute URL (fixed host), with the continuation's sixteen spaces
embedded. -/
def update_object_acl_target (linode_api cluster bucket : String) : String :=
  urljoin linode_api
    ("https://api.linode.com/v4/object-storage/buckets/" ++
      pyQuote cluster ++ "                /" ++ pyQuote bucket ++
      "/object-acl")

/-- URL targeted by `LinodeObjectStorageClient.check_ssl_exists`. -/
def check_ssl_exists_target (linode_api cluster bucket : String) : String :=
  urljoin linode_api
    ("https://api.linode.com/v4/object-storage/buckets/" ++
      pyQuote cluster ++ "                /" ++ pyQuote bucket ++ "/ssl")

/-- URL targeted by `LinodeObjectStorageClient.upload_ssl`. -/
def upload_ssl_target (linode_api cluster bucket : String) : String :=
  urljoin linode_api
    ("https://api.linode.com/v4/object-storage/buckets/" ++
      pyQuote cluster ++ "                /" ++ pyQuote bucket ++ "/ssl")

/-- URL targeted by `LinodeObjectStorageClient.delete_ssl`. -/
def delete_ssl_target (linode_api cluster bucket : String) : String :=
  urljoin linode_api
    ("https://api.linode.com/v4/object-storage/buckets/" ++
      pyQuote cluster ++ "                /" ++ pyQuote bucket ++ "/ssl")

/-- Events that `order_auth` itself can emit (everything except the
orchestrator-level `finalize` and `fetchCert`). -/
def authEvent : Event → Bool
  | .finalize => false
  | .fetchCert => false
  | _ => true

/-- Oracle under which every remote call of one authorization succeeds and
the challenge polls to `valid`. -/
def okWorld : World := ⟨true, true, true, true, true, "valid", true⟩

/-- Concrete authorization that resolves fully successfully. -/
def authValid : Authorization := ⟨[⟨"http-01", "tok1"⟩], okWorld⟩

/-- Concrete authorization whose proof-object PUT request fails. -/
def authPutFail : Authorization :=
  ⟨[⟨"http-01", "tok2"⟩], ⟨true, false, true, true, true, "valid", true⟩⟩

/-- Concrete authorization whose ACL update (make-public) call fails. -/
def authAclFail : Authorization :=
  ⟨[⟨"http-01", "tok3"⟩], ⟨true, true, false, true, true, "valid", true⟩⟩

/-- Concrete authorization whose reachability HEAD request fails. -/
def authHeadFail : Authorization :=
  ⟨[⟨"http-01", "tok4"⟩], ⟨true, true, true, false, true, "valid", true⟩⟩

/-- Concrete authorization offering only an unsupported challenge type. -/
def authUnsupported : Authorization := ⟨[⟨"dns-01", "tok5"⟩], okWorld⟩

/-- Concrete order-level oracle under which everything succeeds. -/
def okOrderEnv : OrderEnv := ⟨true, [authValid], true, "valid", true, "PEM"⟩

/- ----------------------------------------------------------------- -/
/- Helper lemmas -/

theorem resolveAuth_snd_ok_iff (s t cl lb d : String) (a : Authorization) :
    (resolveAuth s t cl lb d a).2 = .ok ↔ authOk s a = true := by
  obtain ⟨chs, cpu, put, acl, head, resp, status, cdel⟩ := a
  cases hsel : challengeSelect s chs <;>
    simp only [resolveAuth, authOk, hsel] <;>
    cases cpu <;> cases put <;> cases acl <;> cases head <;> cases resp <;>
    by_cases hst : status = "valid" <;>
    simp_all [Option.isSome]

theorem order_auth_ret_zero_iff (s t cl lb d : String)
    (auths : List Authorization) :
    (order_auth s t cl lb d auths).2 = .ret 0 ↔
      ∀ a ∈ auths, authOk s a = true := by
  induction auths with
  | nil => simp [order_auth]
  | cons a rest ih =>
    simp only [order_auth]
    cases hr : (resolveAuth s t cl lb d a).2 with
    | ok =>
      have ha : authOk s a = true := (resolveAuth_snd_ok_iff s t cl lb d a).1 hr
      simpa [ha] using ih
    | fail =>
      have ha : ¬ authOk s a = true := by
        intro h
        have := (resolveAuth_snd_ok_iff s t cl lb d a).2 h
        rw [hr] at this
        exact StepRes.noConfusion this
      simp [ha]
    | exc =>
      have ha : ¬ authOk s a = true := by
        intro h
        have := (resolveAuth_snd_ok_iff s t cl lb d a).2 h
        rw [hr] at this
        exact StepRes.noConfusion this
      simp [ha]

theorem resolveAuth_trace_authEvent (s t cl lb d : String)
    (a : Authorization) :
    ∀ e ∈ (resolveAuth s t cl lb d a).1, authEvent e = true := by
  obtain ⟨chs, cpu, put, acl, head, resp, status, cdel⟩ := a
  cases hsel : challengeSelect s chs <;>
    simp only [resolveAuth, hsel] <;>
    cases cpu <;> cases put <;> cases acl <;> cases head <;> cases resp <;>
    cases cdel <;>
    by_cases hst : status = "valid" <;>
    simp_all [cleanupEvents, authEvent]

theorem order_auth_trace_authEvent (s t cl lb d : String)
    (auths : List Authorization) :
    ∀ e ∈ (order_auth s t cl lb d auths).1, authEvent e = true := by
  induction auths with
  | nil => simp [order_auth]
  | cons a rest ih =>
    intro e he
    simp only [order_auth] at he
    cases hr : (resolveAuth s t cl lb d a).2 <;> rw [hr] at he
    · simp only [List.mem_append] at he
      rcases he with h | h
      · exact resolveAuth_trace_authEvent s t cl lb d a e h
      · exact ih e h
    · exact resolveAuth_trace_authEvent s t cl lb d a e he
    · exact resolveAuth_trace_authEvent s t cl lb d a e he

theorem resolveAuth_cleanup_names (s t cl lb d : String) (a : Authorization)
    (hput : a.world.putOk = true) :
    deleteAttemptNames (resolveAuth s t cl lb d a).1 =
      putNames (resolveAuth s t cl lb d a).1 ∧
    (a.world.createDelUrlOk = true →
      deleteReqNames (resolveAuth s t cl lb d a).1 =
        putNames (resolveAuth s t cl lb d a).1) := by
  obtain ⟨chs, cpu, put, acl, head, resp, status, cdel⟩ := a
  simp only at hput
  subst hput
  cases hsel : challengeSelect s chs <;>
    simp only [resolveAuth, hsel] <;>
    cases cpu <;> cases acl <;> cases head <;> cases resp <;> cases cdel <;>
    by_cases hst : status = "valid" <;>
    simp_all [cleanupEvents, deleteAttemptNames, putNames, deleteReqNames,
      eventPutName, eventDeleteAttemptName, eventDeleteReqName]

theorem order_auth_cleanup_names (s t cl lb d : String)
    (auths : List Authorization)
    (hput : ∀ a ∈ auths, a.world.putOk = true) :
    deleteAttemptNames (order_auth s t cl lb d auths).1 =
      putNames (order_auth s t cl lb d auths).1 ∧
    ((∀ a ∈ auths, a.world.createDelUrlOk = true) →
      deleteReqNames (order_auth s t cl lb d auths).1 =
        putNames (order_auth s t cl lb d auths).1) := by
  induction auths with
  | nil =>
    simp [order_auth, deleteAttemptNames, putNames, deleteReqNames]
  | cons a rest ih =>
    have ha := resolveAuth_cleanup_names s t cl lb d a
      (hput a (List.mem_cons_self a rest))
    have ihr := ih (fun x hx => hput x (List.mem_cons_of_mem a hx))
    simp only [order_auth]
    cases hr : (resolveAuth s t cl lb d a).2 with
    | ok =>
      constructor
      · have h1 := ha.1
        have h2 := ihr.1
        simp only [deleteAttemptNames, putNames] at h1 h2
        simp only [deleteAttemptNames, putNames, List.filterMap_append]
        rw [h1, h2]
      · intro hdel
        have h1 := ha.2 (hdel a (List.mem_cons_self a rest))
        have h2 := ihr.2 (fun x hx => hdel x (List.mem_cons_of_mem a hx))
        simp only [deleteReqNames, putNames] at h1 h2
        simp only [deleteReqNames, putNames, List.filterMap_append]
        rw [h1, h2]
    | fail =>
      exact ⟨ha.1, fun hdel => ha.2 (hdel a (List.mem_cons_self a rest))⟩
    | exc =>
      exact ⟨ha.1, fun hdel => ha.2 (hdel a (List.mem_cons_self a rest))⟩

theorem order_auth_ret_codes (s t cl lb d : String)
    (auths : List Authorization) (n : Nat)
    (h : (order_auth s t cl lb d auths).2 = .ret n) : n = 0 ∨ n = 1 := by
  induction auths with
  | nil =>
    simp only [order_auth] at h
    exact Or.inl (RunOutcome.ret.inj h).symm
  | cons a rest ih =>
    simp only [order_auth] at h
    cases hr : (resolveAuth s t cl lb d a).2 <;> rw [hr] at h
    · exact ih h
    · exact Or.inr (RunOutcome.ret.inj h).symm
    · exact RunOutcome.noConfusion h

theorem order_auth_no_finalize (s t cl lb d : String)
    (auths : List Authorization) :
    Event.finalize ∉ (order_auth s t cl lb d auths).1 := by
  intro h
  have := order_auth_trace_authEvent s t cl lb d auths Event.finalize h
  simp [authEvent] at this

theorem order_auth_no_fetchCert (s t cl lb d : String)
    (auths : List Authorization) :
    Event.fetchCert ∉ (order_auth s t cl lb d auths).1 := by
  intro h
  have := order_auth_trace_authEvent s t cl lb d auths Event.fetchCert h
  simp [authEvent] at this

theorem challengeSelect_eq_find (s : String) (cs : List Challenge) :
    challengeSelect s cs = cs.find? (fun c => pyStrIn c.ctype s) := by
  induction cs with
  | nil => rfl
  | cons c rest ih =>
    by_cases h : pyStrIn c.ctype s = true
    · simp [challengeSelect, List.find?, h]
    · simp only [Bool.not_eq_true] at h
      simp [challengeSelect, List.find?, h, ih]

theorem challengeSelect_none_of_unsupported (s : String)
    (cs : List Challenge) (h : ∀ c ∈ cs, pyStrIn c.ctype s = false) :
    challengeSelect s cs = none := by
  induction cs with
  | nil => rfl
  | cons c rest ih =>
    have hc := h c (List.mem_cons_self c rest)
    simp only [challengeSelect, hc]
    exact ih (fun x hx => h x (List.mem_cons_of_mem c hx))

theorem segAt_append (n l r : List Char) (h : segAt n l = true) :
    segAt n (l ++ r) = true := by
  induction n generalizing l with
  | nil => rfl
  | cons a as ih =>
    cases l with
    | nil => exact absurd h (by simp [segAt])
    | cons b bs =>
      simp only [segAt, Bool.and_eq_true] at h ⊢
      exact ⟨h.1, ih bs h.2⟩

theorem hasSeg_append_left (n l r : List Char) (h : hasSeg n l = true) :
    hasSeg n (l ++ r) = true := by
  induction l with
  | nil =>
    simp only [hasSeg, List.isEmpty_iff] at h
    subst h
    cases r with
    | nil => rfl
    | cons c cs => simp [hasSeg, segAt]
  | cons c cs ih =>
    simp only [hasSeg, Bool.or_eq_true, List.cons_append] at h ⊢
    rcases h with h | h
    · exact Or.inl (by simpa using segAt_append n (c :: cs) r h)
    · exact Or.inr (ih h)

theorem pyStrIn_append_left (n pre rest : String)
    (h : pyStrIn n pre = true) : pyStrIn n (pre ++ rest) = true := by
  simp only [pyStrIn, String.data_append]
  exact hasSeg_append_left n.data pre.data rest.data h

theorem urljoin_abs_buckets (api tail : String) :
    urljoin api
      ("https://api.linode.com/v4/object-storage/buckets/" ++ tail) =
      "https://api.linode.com/v4/object-storage/buckets/" ++ tail := by
  have h : pyStrIn "://"
      ("https://api.linode.com/v4/object-storage/buckets/" ++ tail) = true :=
    pyStrIn_append_left "://" "https://api.linode.com/v4/object-storage/buckets/"
      tail (by decide)
  simp [urljoin, h]

/- ----------------------------------------------------------------- -/
/- Claim theorems -/

/-- C1, counterexample: in the run over one authorization whose
proof-object PUT request fails with an HTTP error, one publish (PUT)
attempt is made but `order_auth` returns before the `try/finally` cleanup
region is entered, so zero delete attempts (and zero DELETE requests) are
made — the claimed equality of delete and publish attempt counts fails. -/
theorem claim_c1_cex :
    (putNames (order_auth "http-01" "TH" "us-east" "my-site" "example.com"
      [authPutFail]).1).length = 1 ∧
    (deleteAttemptNames (order_auth "http-01" "TH" "us-east" "my-site"
      "example.com" [authPutFail]).1).length = 0 ∧
    (deleteReqNames (order_auth "http-01" "TH" "us-east" "my-site"
      "example.com" [authPutFail]).1).length = 0 := by
  decide

/-- C1 (amended): in every resolver run in which each attempted
proof-object PUT request itself succeeds, the delete attempts made against
the storage provider carry exactly the same derived object names, in the
same order, as the publish (PUT) attempts; and when each pre-signed DELETE
URL grant also succeeds, the DELETE requests do too. (A PUT attempt that
itself fails is not followed by any delete attempt, because `order_auth`
returns before entering its cleanup region.) -/
theorem claim_c1_cleanup_invariant (s t cl lb d : String)
    (auths : List Authorization)
    (hput : ∀ a ∈ auths, a.world.putOk = true) :
    deleteAttemptNames (order_auth s t cl lb d auths).1 =
      putNames (order_auth s t cl lb d auths).1 ∧
    ((∀ a ∈ auths, a.world.createDelUrlOk = true) →
      deleteReqNames (order_auth s t cl lb d auths).1 =
        putNames (order_auth s t cl lb d auths).1) :=
  order_auth_cleanup_names s t cl lb d auths hput

/-- Witness for C1: the amended cleanup invariant evaluated on a concrete
successful run over one authorization. -/
theorem claim_c1_witness :
    (∀ a ∈ [authValid], a.world.putOk = true) ∧
    (deleteAttemptNames (order_auth "http-01" "TH" "us-east" "my-site"
        "example.com" [authValid]).1 =
      putNames (order_auth "http-01" "TH" "us-east" "my-site"
        "example.com" [authValid]).1 ∧
    ((∀ a ∈ [authValid], a.world.createDelUrlOk = true) →
      deleteReqNames (order_auth "http-01" "TH" "us-east" "my-site"
          "example.com" [authValid]).1 =
        putNames (order_auth "http-01" "TH" "us-east" "my-site"
          "example.com" [authValid]).1)) :=
  ⟨by decide, claim_c1_cleanup_invariant "http-01" "TH" "us-east" "my-site"
    "example.com" [authValid] (by decide)⟩

/-- C5: for an authorization none of whose challenge types passes the
code's support test, `order_auth`'s loop body fails immediately with an
empty event trace — zero calls against the storage provider — and in
general the selected challenge is the first of the list passing the
support test (`List.find?` semantics), preserving the given ordering. -/
theorem claim_c5_unsupported_challenge :
    (∀ (s t cl lb d : String) (a : Authorization),
      (∀ c ∈ a.challenges, pyStrIn c.ctype s = false) →
      resolveAuth s t cl lb d a = ([], .fail)) ∧
    (∀ (s : String) (cs : List Challenge),
      challengeSelect s cs = cs.find? (fun c => pyStrIn c.ctype s)) := by
  constructor
  · intro s t cl lb d a h
    have hsel := challengeSelect_none_of_unsupported s a.challenges h
    simp [resolveAuth, hsel]
  · intro s cs
    exact challengeSelect_eq_find s cs

/-- Witness for C5: the unsupported-challenge branch evaluated on a
concrete authorization offering only a `dns-01` challenge while only
`http-01` is supported. -/
theorem claim_c5_witness :
    (∀ c ∈ authUnsupported.challenges, pyStrIn c.ctype "http-01" = false) ∧
    resolveAuth "http-01" "TH" "us-east" "my-site" "example.com"
      authUnsupported = ([], .fail) :=
  ⟨by decide, claim_c5_unsupported_challenge.1 "http-01" "TH" "us-east"
    "my-site" "example.com" authUnsupported (by decide)⟩

/-- C7: when the reachability HEAD request fails, no respond call is ever
sent to the certificate authority in that run, the cleanup delete attempt
against the proof object's derived name is still made (and, when the
pre-signed DELETE URL grant succeeds, the DELETE request too), and the
resolver returns failure. -/
theorem claim_c7_head_failure (s t cl lb d : String) (a : Authorization)
    (rest : List Authorization) (c : Challenge)
    (hsel : challengeSelect s a.challenges = some c)
    (h1 : a.world.createPutUrlOk = true) (h2 : a.world.putOk = true)
    (h3 : a.world.aclOk = true) (h4 : a.world.headOk = false) :
    (∀ tok, Event.respond tok ∉ (order_auth s t cl lb d (a :: rest)).1) ∧
    deleteAttemptNames (order_auth s t cl lb d (a :: rest)).1 =
      [objName c.token] ∧
    (a.world.createDelUrlOk = true →
      Event.deleteObj (objName c.token) ∈
        (order_auth s t cl lb d (a :: rest)).1) ∧
    (order_auth s t cl lb d (a :: rest)).2 = .ret 1 := by
  obtain ⟨chs, cpu, put, acl, head, resp, status, cdel⟩ := a
  simp only at hsel h1 h2 h3 h4
  subst h1 h2 h3 h4
  cases cdel <;>
    simp_all [order_auth, resolveAuth, hsel, cleanupEvents,
      deleteAttemptNames, eventDeleteAttemptName]

/-- Witness for C7: the head-failure scenario evaluated on a concrete
authorization. -/
theorem claim_c7_witness :
    (challengeSelect "http-01" authHeadFail.challenges =
        some ⟨"http-01", "tok4"⟩ ∧
      authHeadFail.world.createPutUrlOk = true ∧
      authHeadFail.world.putOk = true ∧
      authHeadFail.world.aclOk = true ∧
      authHeadFail.world.headOk = false) ∧
    ((∀ tok, Event.respond tok ∉ (order_auth "http-01" "TH" "us-east"
        "my-site" "example.com" [authHeadFail]).1) ∧
      deleteAttemptNames (order_auth "http-01" "TH" "us-east" "my-site"
        "example.com" [authHeadFail]).1 = [objName "tok4"] ∧
      (authHeadFail.world.createDelUrlOk = true →
        Event.deleteObj (objName "tok4") ∈ (order_auth "http-01" "TH"
          "us-east" "my-site" "example.com" [authHeadFail]).1) ∧
      (order_auth "http-01" "TH" "us-east" "my-site" "example.com"
        [authHeadFail]).2 = .ret 1) :=
  ⟨⟨by decide, by decide, by decide, by decide, by decide⟩,
    claim_c7_head_failure "http-01" "TH" "us-east" "my-site" "example.com"
      authHeadFail [] ⟨"http-01", "tok4"⟩ (by decide) (by decide) (by decide)
      (by decide) (by decide)⟩

/-- C3, counterexample: in the run over one authorization whose ACL
(make-public) call fails, `order_auth` does not return a failure code to
its caller — the `try ... finally` has no `except` clause for the ACL
call, so the `HTTPError` escapes the function (outcome `raised`, not
`ret 1`). -/
theorem claim_c3_cex :
    (order_auth "http-01" "TH" "us-east" "my-site" "example.com"
      [authAclFail]).2 = .raised ∧
    (order_auth "http-01" "TH" "us-east" "my-site" "example.com"
      [authAclFail]).2 ≠ .ret 1 ∧
    (order_auth "http-01" "TH" "us-east" "my-site" "example.com"
      [authAclFail]).2 ≠ .ret 0 := by
  decide

/-- C3 (amended): if the storage provider rejects the make-public (ACL)
call, the resolver does not catch the resulting error — the exception
propagates out of `order_auth` to its caller — but the `finally` cleanup
still runs first: exactly one delete attempt (and, the DELETE URL grant
succeeding, exactly one DELETE request) is made against the proof
object's known derived name, matching the single publish attempt. -/
theorem claim_c3_acl_failure (s t cl lb d : String) (a : Authorization)
    (rest : List Authorization) (c : Challenge)
    (hsel : challengeSelect s a.challenges = some c)
    (h1 : a.world.createPutUrlOk = true) (h2 : a.world.putOk = true)
    (h3 : a.world.aclOk = false) (h4 : a.world.createDelUrlOk = true) :
    (order_auth s t cl lb d (a :: rest)).2 = .raised ∧
    deleteAttemptNames (order_auth s t cl lb d (a :: rest)).1 =
      [objName c.token] ∧
    deleteReqNames (order_auth s t cl lb d (a :: rest)).1 =
      [objName c.token] ∧
    putNames (order_auth s t cl lb d (a :: rest)).1 =
      [objName c.token] := by
  obtain ⟨chs, cpu, put, acl, head, resp, status, cdel⟩ := a
  simp only at hsel h1 h2 h3 h4
  subst h1 h2 h3 h4
  simp_all [order_auth, resolveAuth, hsel, cleanupEvents,
    deleteAttemptNames, deleteReqNames, putNames, eventPutName,
    eventDeleteAttemptName, eventDeleteReqName]

/-- Witness for C3: the ACL-failure scenario evaluated on a concrete
authorization. -/
theorem claim_c3_witness :
    (challengeSelect "http-01" authAclFail.challenges =
        some ⟨"http-01", "tok3"⟩ ∧
      authAclFail.world.createPutUrlOk = true ∧
      authAclFail.world.putOk = true ∧
      authAclFail.world.aclOk = false ∧
      authAclFail.world.createDelUrlOk = true) ∧
    ((order_auth "http-01" "TH" "us-east" "my-site" "example.com"
        [authAclFail]).2 = .raised ∧
      deleteAttemptNames (order_auth "http-01" "TH" "us-east" "my-site"
        "example.com" [authAclFail]).1 = [objName "tok3"] ∧
      deleteReqNames (order_auth "http-01" "TH" "us-east" "my-site"
        "example.com" [authAclFail]).1 = [objName "tok3"] ∧
      putNames (order_auth "http-01" "TH" "us-east" "my-site"
        "example.com" [authAclFail]).1 = [objName "tok3"]) :=
  ⟨⟨by decide, by decide, by decide, by decide, by decide⟩,
    claim_c3_acl_failure "http-01" "TH" "us-east" "my-site" "example.com"
      authAclFail [] ⟨"http-01", "tok3"⟩ (by decide) (by decide) (by decide)
      (by decide) (by decide)⟩

/-- C4: the finalize call appears in the orchestrator's trace exactly when
order creation succeeded and every authorization on the order resolved
fully successfully (`authOk`), and `authOk` requires in particular that
the selected challenge polled to status `valid`; contrapositively, on any
authorization failure the orchestrator returns without calling finalize. -/
theorem claim_c4_finalize_gate (d cl lb s t : String) (env : OrderEnv) :
    (Event.finalize ∈ (creating_acme_order d cl lb s t env).1 ↔
      env.newOrderOk = true ∧ ∀ a ∈ env.auths, authOk s a = true) ∧
    (∀ a : Authorization, authOk s a = true →
      a.world.statusAfterPoll = "valid") := by
  constructor
  · cases hno : env.newOrderOk
    · simp [creating_acme_order, hno]
    · cases hoa : (order_auth s t cl lb d env.auths).2 with
      | raised =>
        have hnf := order_auth_no_finalize s t cl lb d env.auths
        have hnall : ¬ ∀ a ∈ env.auths, authOk s a = true := by
          intro hall
          have := (order_auth_ret_zero_iff s t cl lb d env.auths).2 hall
          rw [hoa] at this
          exact RunOutcome.noConfusion this
        simp [creating_acme_order, hno, hoa, hnf, hnall]
      | ret n =>
        rcases order_auth_ret_codes s t cl lb d env.auths n hoa with h0 | h1
        · subst h0
          have hall := (order_auth_ret_zero_iff s t cl lb d env.auths).1 hoa
          by_cases hf : env.finalizeOk <;>
            by_cases hst : env.orderStatus = "valid" <;>
            by_cases hc : env.certOk <;>
            simp [creating_acme_order, hno, hoa, hf, hst, hc, hall] <;>
            exact hall
        · subst h1
          have hnf := order_auth_no_finalize s t cl lb d env.auths
          have hnall : ¬ ∀ a ∈ env.auths, authOk s a = true := by
            intro hall
            have := (order_auth_ret_zero_iff s t cl lb d env.auths).2 hall
            rw [hoa] at this
            exact absurd (RunOutcome.ret.inj this) (by decide)
          simp [creating_acme_order, hno, hoa, hnf, hnall]
  · intro a h
    simp only [authOk, Bool.and_eq_true, beq_iff_eq] at h
    exact h.2

/-- Witness for C4: on the all-successful concrete order environment the
finalize call is present in the trace. -/
theorem claim_c4_witness :
    Event.finalize ∈
      (creating_acme_order "example.com" "us-east" "my-site" "http-01" "TH"
        okOrderEnv).1 :=
  (claim_c4_finalize_gate "example.com" "us-east" "my-site" "http-01" "TH"
    okOrderEnv).1.mpr ⟨by decide, by decide⟩

/-- C6: when every authorization succeeded but polling after finalize
leaves the order in a terminal status other than `valid`,
`creating_acme_order` returns the failure code and the certificate fetch
never appears in the trace. -/
theorem claim_c6_finalize_poll_invalid (d cl lb s t : String)
    (env : OrderEnv) (h1 : env.newOrderOk = true)
    (h2 : ∀ a ∈ env.auths, authOk s a = true)
    (h3 : env.finalizeOk = true) (h4 : env.orderStatus ≠ "valid") :
    (creating_acme_order d cl lb s t env).2 = .errCode 1 ∧
    Event.fetchCert ∉ (creating_acme_order d cl lb s t env).1 := by
  have hoa : (order_auth s t cl lb d env.auths).2 = .ret 0 :=
    (order_auth_ret_zero_iff s t cl lb d env.auths).2 h2
  have hnf := order_auth_no_fetchCert s t cl lb d env.auths
  simp [creating_acme_order, h1, hoa, h3, h4, hnf]

/-- Witness for C6: the non-`valid` finalize outcome evaluated on a
concrete environment whose order polls to `invalid`. -/
theorem claim_c6_witness :
    ((okOrderEnv.certOk = true) ∧
      ({ okOrderEnv with orderStatus := "invalid" } : OrderEnv).newOrderOk =
        true ∧
      ({ okOrderEnv with orderStatus := "invalid" } : OrderEnv).finalizeOk =
        true ∧
      ({ okOrderEnv with orderStatus := "invalid" } : OrderEnv).orderStatus ≠
        "valid") ∧
    ((creating_acme_order "example.com" "us-east" "my-site" "http-01" "TH"
        { okOrderEnv with orderStatus := "invalid" }).2 = .errCode 1 ∧
      Event.fetchCert ∉ (creating_acme_order "example.com" "us-east"
        "my-site" "http-01" "TH"
        { okOrderEnv with orderStatus := "invalid" }).1) :=
  ⟨⟨by decide, by decide, by decide, by decide⟩,
    claim_c6_finalize_poll_invalid "example.com" "us-east" "my-site"
      "http-01" "TH" { okOrderEnv with orderStatus := "invalid" }
      (by decide) (by decide) (by decide) (by decide)⟩

/-- C2 (evaluation at the failing input): in a run where every step up to
certificate issuance succeeds but the install step fails (the old
certificate's deletion is rejected, so `update_certs` returns `1`),
`set_s3_ssl` still returns `0`: the source discards `update_certs`'s
returned status, so the top-level outcome reports success although the
certificate was not installed. -/
theorem claim_c2_install_failure_ignored :
    set_s3_ssl "example.com" "us-east" "my-site" "http-01"
      { bucketAccessKey := some "KEY",
        bucketList := [("us-east", "my-site")],
        newAccount := some (some ⟨"TH"⟩),
        orderEnv := okOrderEnv,
        deleteSslOk := false, uploadSslOk := true } = .ret 0 ∧
    update_certs false true = 1 := by
  decide

/-- C10: `set_s3_ssl` returns `1` only when the access key is missing or
no bucket matches; an account-registration failure makes it terminate the
process via `exit(1)`, and an order-level failure (order creation,
authorization, finalization or certificate fetch) likewise makes it
terminate via `exit(1)` rather than return. -/
theorem claim_c10_exit_paths (d cl lb s : String) (env : SslEnv) :
    (set_s3_ssl d cl lb s env = .ret 1 →
      env.bucketAccessKey = none ∨
      (env.bucketList.filter (fun b => b.1 == cl && b.2 == lb)).isEmpty =
        true) ∧
    (env.bucketAccessKey ≠ none →
      (env.bucketList.filter (fun b => b.1 == cl && b.2 == lb)).isEmpty =
        false →
      registering_acme_account env.newAccount = .errCode 1 →
      set_s3_ssl d cl lb s env = .exited 1) ∧
    (∀ acct : Account, env.bucketAccessKey ≠ none →
      (env.bucketList.filter (fun b => b.1 == cl && b.2 == lb)).isEmpty =
        false →
      registering_acme_account env.newAccount = .acct acct →
      (creating_acme_order d cl lb s acct.key_thumbprint env.orderEnv).2 =
        .errCode 1 →
      set_s3_ssl d cl lb s env = .exited 1) := by
  refine ⟨?_, ?_, ?_⟩
  · intro h
    cases hk : env.bucketAccessKey with
    | none => exact Or.inl rfl
    | some k =>
      by_cases he :
        (env.bucketList.filter (fun b => b.1 == cl && b.2 == lb)).isEmpty =
          true
      · exact Or.inr he
      · exfalso
        simp only [Bool.not_eq_true] at he
        cases hr : registering_acme_account env.newAccount with
        | errCode n =>
          simp [set_s3_ssl, hk, he, hr] at h
        | acct a =>
          cases hco : (creating_acme_order d cl lb s a.key_thumbprint
              env.orderEnv).2 <;>
            simp [set_s3_ssl, hk, he, hr, hco] at h
  · intro hk he hr
    obtain ⟨k, hk2⟩ := Option.ne_none_iff_exists'.mp hk
    simp [set_s3_ssl, hk2, he, hr]
  · intro acct hk he hr hco
    obtain ⟨k, hk2⟩ := Option.ne_none_iff_exists'.mp hk
    simp [set_s3_ssl, hk2, he, hr, hco]

/-- Witness for C10: a concrete run with key and bucket present whose
account registration fails terminates with `exit(1)`. -/
theorem claim_c10_witness :
    (({ bucketAccessKey := some "KEY",
        bucketList := [("us-east", "my-site")],
        newAccount := none, orderEnv := okOrderEnv,
        deleteSslOk := true, uploadSslOk := true } : SslEnv).bucketAccessKey ≠
      none ∧
    (([("us-east", "my-site")] : List (String × String)).filter
      (fun b => b.1 == "us-east" && b.2 == "my-site")).isEmpty = false ∧
    registering_acme_account none = .errCode 1) ∧
    set_s3_ssl "example.com" "us-east" "my-site" "http-01"
      { bucketAccessKey := some "KEY",
        bucketList := [("us-east", "my-site")],
        newAccount := none, orderEnv := okOrderEnv,
        deleteSslOk := true, uploadSslOk := true } = .exited 1 :=
  ⟨⟨by decide, by decide, by decide⟩,
    (claim_c10_exit_paths "example.com" "us-east" "my-site" "http-01"
      { bucketAccessKey := some "KEY",
        bucketList := [("us-east", "my-site")],
        newAccount := none, orderEnv := okOrderEnv,
        deleteSslOk := true, uploadSslOk := true }).2.1
      (by decide) (by decide) (by decide)⟩

/-- C8, counterexample: `generate_private_key` accepts a 1024-bit key size
(the underlying library rejects only sizes below 512), refuting the claim
that every size below 2048 is rejected. -/
theorem claim_c8_cex :
    generate_private_key 1024 = .ok ⟨65537, 1024⟩ ∧ 1024 < 2048 := by
  refine ⟨?_, by decide⟩
  unfold generate_private_key rsaLibGenerate
  rw [if_neg (by simp), if_neg (by norm_num)]

/-- C8 (amended): `generate_private_key` applies no key-size floor of its
own; it succeeds for every caller-supplied size accepted by the library
(at least 512 bits), including sizes below 2048, and fails only for sizes
below 512. -/
theorem claim_c8_no_floor (n : Nat) :
    (512 ≤ n → generate_private_key n = .ok ⟨65537, n⟩) ∧
    (n < 512 → generate_private_key n =
      .error "key_size must be at least 512-bits.") := by
  constructor
  · intro h
    unfold generate_private_key rsaLibGenerate
    rw [if_neg (by simp), if_neg (Nat.not_lt.mpr h)]
  · intro h
    unfold generate_private_key rsaLibGenerate
    rw [if_neg (by simp), if_pos h]

/-- Witness for C8: the amended behavior evaluated at 4096 and 100 bits. -/
theorem claim_c8_witness :
    (512 ≤ 4096 ∧ generate_private_key 4096 = .ok ⟨65537, 4096⟩) ∧
    (100 < 512 ∧ generate_private_key 100 =
      .error "key_size must be at least 512-bits.") :=
  ⟨⟨by decide, (claim_c8_no_floor 4096).1 (by decide)⟩,
    ⟨by decide, (claim_c8_no_floor 100).2 (by decide)⟩⟩

/-- An argument that carries a scheme separator makes `urljoin` ignore its
base entirely. -/
theorem urljoin_of_abs (api s : String) (h : pyStrIn "://" s = true) :
    urljoin api s = s := by
  simp [urljoin, h]

/-- The ACL and SSL-slot URLs are absolute, so the configured base is
ignored whatever cluster and bucket names are interpolated. -/
theorem urljoin_linode_abs (api c b suffix : String) :
    urljoin api ("https://api.linode.com/v4/object-storage/buckets/" ++
      pyQuote c ++ "                /" ++ pyQuote b ++ suffix) =
    "https://api.linode.com/v4/object-storage/buckets/" ++
      pyQuote c ++ "                /" ++ pyQuote b ++ suffix := by
  apply urljoin_of_abs
  simp only [pyStrIn, String.data_append, List.append_assoc]
  exact hasSeg_append_left _ _ _ (by decide)

/-- C9: for every configured API base URL, the `update_object_acl`,
`check_ssl_exists`, `upload_ssl` and `delete_ssl` requests go to the fixed
host `https://api.linode.com` — the absolute URL passed to `urljoin`
overrides the base, so the configured `linode_api` value does not affect
where those requests are sent — whereas `buckets` and `create_object_url`
resolve their relative paths against the configured base. -/
theorem claim_c9_fixed_host (api api2 c b : String) :
    update_object_acl_target api c b =
      "https://api.linode.com/v4/object-storage/buckets/" ++ pyQuote c ++
        "                /" ++ pyQuote b ++ "/object-acl" ∧
    check_ssl_exists_target api c b =
      "https://api.linode.com/v4/object-storage/buckets/" ++ pyQuote c ++
        "                /" ++ pyQuote b ++ "/ssl" ∧
    upload_ssl_target api c b = check_ssl_exists_target api c b ∧
    delete_ssl_target api c b = check_ssl_exists_target api c b ∧
    update_object_acl_target api c b = update_object_acl_target api2 c b ∧
    check_ssl_exists_target api c b = check_ssl_exists_target api2 c b ∧
    buckets_target "https://api.linode.com/" =
      "https://api.linode.com/v4/object-storage/buckets/" ∧
    buckets_target "https://storage.example.org/" =
      "https://storage.example.org/v4/object-storage/buckets/" ∧
    (buckets_target "https://api.linode.com/" ==
      buckets_target "https://storage.example.org/") = false ∧
    create_object_url_target "https://storage.example.org/" "us-east"
        "my-site" =
      "https://storage.example.org/v4/object-storage/buckets/us-east/my-site                /object-url" := by
  refine ⟨?_, ?_, rfl, rfl, ?_, ?_, by decide, by decide, by decide,
    by decide⟩
  · exact urljoin_linode_abs api c b "/object-acl"
  · exact urljoin_linode_abs api c b "/ssl"
  · rw [update_object_acl_target, update_object_acl_target,
      urljoin_linode_abs, urljoin_linode_abs]
  · rw [check_ssl_exists_target, check_ssl_exists_target,
      urljoin_linode_abs, urljoin_linode_abs]

/-- Witness for C9: the fixed-host equality evaluated at a concrete base,
cluster and bucket. -/
theorem claim_c9_witness :
    update_object_acl_target "https://storage.example.org/" "us-east"
        "my-site" =
      "https://api.linode.com/v4/object-storage/buckets/" ++
        pyQuote "us-east" ++ "                /" ++ pyQuote "my-site" ++
        "/object-acl" :=
  (claim_c9_fixed_host "https://storage.example.org/" "https://x/" "us-east"
    "my-site").1

end Infra
